import Mathlib

/-
Verification development for the OptionChainuWithdb ingestion-and-detection
engine.  Numeric values are modelled as exact rationals (Python floats are
IEEE doubles; every branch condition and clamp treated here is
magnitude-robust, and the statements proved do not depend on rounding).
Timestamps are rationals counting seconds (microsecond precision, as stored
by datetime.now and TIMESTAMPTZ).
-/

namespace OptionChain

/-- Population mean, as computed by np.mean (sum divided by length). -/
def npMean (l : List ℚ) : ℚ := l.sum / l.length

/-- Population variance, as computed by np.var: mean of squared deviations. -/
def npVar (l : List ℚ) : ℚ := ((l.map (fun x => (x - npMean l) ^ 2)).sum) / l.length

/-- Population standard deviation np.std = sqrt of the population variance.
The real square root of a rational is irrational in general; Rat.sqrt is used
here.  Rat.sqrt agrees with the real square root in sign (it is zero exactly
on variance zero and positive exactly on positive variance), which is the only
property of np.std that any statement below depends on: the detector branches
compare the standard deviation with 0, and the bound theorems hold for every
possible value of the resulting quotient. -/
def npStd (l : List ℚ) : ℚ := Rat.sqrt (npVar l)

/-- Ascending sort of rationals (any correct sort yields the same list). -/
def sortQ (l : List ℚ) : List ℚ := l.insertionSort (· ≤ ·)

/-- np.percentile with the default linear interpolation: for a sample of size
n and percentile p, the rank is h = (n-1)p/100 and the result interpolates
between the floor(h)-th and next order statistics. -/
def npPercentile (l : List ℚ) (p : ℚ) : ℚ :=
  let s := sortQ l
  let n := s.length
  if n = 0 then 0
  else
    let h : ℚ := (n - 1) * p / 100
    let i : ℕ := (Int.floor h).toNat
    let lo := s.getD i 0
    let hi := s.getD (min (i + 1) (n - 1)) 0
    lo + (h - (i : ℚ)) * (hi - lo)

/-- AdaptiveGammaBlastDetector.calculate_z_score_or_threshold
(src/background_service.py lines 66-96): three-tier normalization.
With at least 10 historical points it returns the z-score (0 when the
standard deviation is zero); with 3-9 points a percentile bucket in
\x7b-1, 0, 1\x7d; with fewer than 3 points it compares against the absolute
fallback threshold, returning 1 or 0, except that a non-positive
fallback threshold always yields 0. -/
def calculate_z_score_or_threshold (current : ℚ) (historical : List ℚ)
    (fallback_threshold : ℚ) : ℚ :=
  if historical.length ≥ 10 then
    let mean := npMean historical
    let std := npStd historical
    if std > 0 then (current - mean) / std else 0
  else if historical.length ≥ 3 then
    let p75 := npPercentile historical 75
    let p25 := npPercentile historical 25
    if current > p75 then 1
    else if current < p25 then -1
    else 0
  else
    if fallback_threshold > 0 then
      if current > fallback_threshold then 1 else 0
    else 0

/-- Current-cycle metrics dictionary handed to the detector
(src/background_service.py lines 1581-1594).  Each field models the result of
current_data.get(key, 0); an absent key is the value 0. -/
structure CurrentData where
  atm_iv : ℚ
  atm_oi : ℚ
  gamma_concentration : ℚ
  net_gex : ℚ
  spot_price : ℚ
  atm_strike : ℚ
  ce_oi_total : ℚ
  pe_oi_total : ℚ
  ce_iv_avg : ℚ
  pe_iv_avg : ℚ
  ce_itm_chg_oi : ℚ
  pe_itm_chg_oi : ℚ
deriving DecidableEq

/-- One historical metrics dictionary (src/background_service.py lines
1557-1565).  The caller populates only the first four keys; spot_price models
d.get(spot_price, 0), which is 0 in production rows. -/
structure HistPoint where
  atm_iv : ℚ
  atm_oi : ℚ
  gamma_concentration : ℚ
  net_gex : ℚ
  spot_price : ℚ
deriving DecidableEq

/-- GammaBlastSignal dataclass (src/background_service.py lines 46-54).
Trigger strings in the source interpolate numeric values via format
specifiers; the embedding keeps the constant text of each trigger, which
preserves the count and order of the list (the only facts the program
branches on). -/
structure GammaBlastSignal where
  probability : ℚ
  direction : String
  confidence : String
  time_to_blast_min : Option ℤ
  triggers : List String
  risk_level : String

/-- Historical IV array: values of atm_iv filtered to positive
(src/background_service.py line 126). -/
def hist_iv (hd : List HistPoint) : List ℚ :=
  (hd.map (fun d => d.atm_iv)).filter (fun x => decide (0 < x))

/-- SIGNAL 1 of detect_gamma_blast (lines 131-161): IV z-score spike,
returning the normalized value and the triggers it appends. -/
def signal_iv (cd : CurrentData) (hd : List HistPoint) : ℚ × List String :=
  let curr_iv := cd.atm_iv
  let hiv := hist_iv hd
  let iv_zscore := calculate_z_score_or_threshold curr_iv hiv 30
  if hiv.length ≥ 10 then
    if iv_zscore > 2.5 then (1, ["IV Spike"])
    else if iv_zscore > 2 then (0.6, ["IV Elevated"])
    else if iv_zscore < -2 then (0.6, ["IV Collapse"])
    else (max 0 (min 1 ((|iv_zscore| - 1) / 1.5)), [])
  else if hiv.length ≥ 3 then
    if iv_zscore > 0 then (0.8, ["IV Elevated (>P75)"])
    else if iv_zscore < 0 then (0.6, ["IV Collapsed (<P25)"])
    else (0.3, [])
  else if iv_zscore > 0 then (0.5, ["IV High"])
  else (0, [])

/-- Sliding-window second differences of a series, exactly the
hist_accelerations loop of lines 177-181: for i in range(2, n), append
(s[i] - s[i-1]) - (s[i-1] - s[i-2]). -/
def histAccelerations : List ℚ → List ℚ
  | a :: b :: c :: rest => ((c - b) - (b - a)) :: histAccelerations (b :: c :: rest)
  | _ => []

/-- SIGNAL 2 of detect_gamma_blast (lines 163-219): OI acceleration with
adaptive threshold.  The oi_series endpoints historical_data[-3] and
historical_data[-2] are the third- and second-from-last entries. -/
def signal_oi_accel (cd : CurrentData) (hd : List HistPoint) : ℚ × List String :=
  if hd.length ≥ 3 then
    let curr_oi := cd.atm_oi
    let ois := hd.map (fun d => d.atm_oi)
    let r := ois.reverse
    let velocity_1 := r.getD 1 0 - r.getD 2 0
    let velocity_2 := curr_oi - r.getD 1 0
    let acceleration := velocity_2 - velocity_1
    let hist_accels := histAccelerations ois
    if hist_accels ≠ [] then
      let fallback_accel : ℚ := if curr_oi < 1000000 then 1000 else 10000
      let accel_zscore := calculate_z_score_or_threshold acceleration hist_accels fallback_accel
      if hist_accels.length ≥ 10 then
        if accel_zscore < -2 then (1, ["OI Unwinding"])
        else if accel_zscore > 2 then (0.7, ["OI Buildup"])
        else (max 0 (|accel_zscore| / 2.5), [])
      else if hist_accels.length ≥ 3 then
        if accel_zscore < 0 then (0.8, ["OI Unwinding (<P25)"])
        else if accel_zscore > 0 then (0.6, ["OI Buildup (>P75)"])
        else (0.3, [])
      else if |accel_zscore| > 0 then
        if acceleration < 0 then (0.6, ["OI Unwinding (abs)"])
        else (0.4, ["OI Buildup (abs)"])
      else (0, [])
    else (0, [])
  else (0, [])

/-- SIGNAL 3 of detect_gamma_blast (lines 221-241): gamma concentration
expansion; the historical array is unfiltered. -/
def signal_gamma_conc (cd : CurrentData) (hd : List HistPoint) : ℚ × List String :=
  let hgc := hd.map (fun d => d.gamma_concentration)
  let gamma_zscore := calculate_z_score_or_threshold cd.gamma_concentration hgc 0.6
  if hgc.length ≥ 10 then
    if gamma_zscore > 2 then (1, ["Gamma Clustering"])
    else (max 0 (min 1 (gamma_zscore / 2.5)), [])
  else if hgc.length ≥ 3 then
    if gamma_zscore > 0 then (0.8, ["Gamma Clustering (>P75)"])
    else (0, [])
  else if gamma_zscore > 0 then (0.6, ["High Gamma Conc"])
  else (0, [])

/-- SIGNAL 4 of detect_gamma_blast (lines 243-257): strike pin risk.  The
source divides by spot without a guard, so the Python code raises
ZeroDivisionError when atm_strike > 0 and spot = 0; under the total rational
division convention (x / 0 = 0) that input takes the first band.  Every
branch still yields a value in [0, 1], so the bound statements are
insensitive to this convention. -/
def signal_pin_risk (cd : CurrentData) : ℚ × List String :=
  if cd.atm_strike > 0 then
    let distance_pct := |cd.spot_price - cd.atm_strike| / cd.spot_price * 100
    if distance_pct < 0.3 then (1, ["Pin Risk"])
    else if distance_pct < 0.5 then (0.6, ["Pin Risk"])
    else if distance_pct < 1 then (0.3, [])
    else (0, [])
  else (0, [])

/-- SIGNAL 5 of detect_gamma_blast (lines 259-274): gamma-exposure sign flip
against hist_gex[-1], the last entry of the historical array. -/
def signal_gex_flip (cd : CurrentData) (hd : List HistPoint) : ℚ × List String :=
  let hg := hd.map (fun d => d.net_gex)
  match hg.getLast? with
  | some prev_gex =>
    if (prev_gex > 0 ∧ cd.net_gex < 0) ∨ (prev_gex < 0 ∧ cd.net_gex > 0) then
      let flip_magnitude := |cd.net_gex - prev_gex|
      if flip_magnitude > |prev_gex| * 0.5 then (1, ["GEX Flip Detected (Strong)"])
      else (0.6, ["GEX Flip Detected"])
    else (0, [])
  | none => (0, [])

/-- SIGNAL 6 of detect_gamma_blast (lines 276-294): gamma-exposure
extremeness against its own empirical percentile. -/
def signal_gex_extreme (cd : CurrentData) (hd : List HistPoint) : ℚ × List String :=
  let hg := hd.map (fun d => d.net_gex)
  if hg.length ≥ 10 then
    let gex_percentile : ℚ :=
      (((hg.filter (fun g => decide (g ≤ cd.net_gex))).length : ℚ) / (hg.length : ℚ)) * 100
    if gex_percentile > 95 then (1, ["Extreme GEX"])
    else if gex_percentile > 90 then (0.7, ["High GEX"])
    else if gex_percentile < 5 then (1, ["Extreme GEX (low)"])
    else if gex_percentile < 10 then (0.7, ["Low GEX"])
    else (0, [])
  else (0, [])

/-- Strictly decreasing chain test: all(s[i] > s[i+1]) over adjacent pairs. -/
def strictDecChain : List ℚ → Bool
  | a :: b :: rest => decide (a > b) && strictDecChain (b :: rest)
  | _ => true

/-- Strictly increasing chain test: all(s[i] < s[i+1]) over adjacent pairs. -/
def strictIncChain : List ℚ → Bool
  | a :: b :: rest => decide (a < b) && strictIncChain (b :: rest)
  | _ => true

/-- Direction score of detect_gamma_blast (src/background_service.py lines
310-365): ITM change-in-OI on each side, put/call OI ratio, gamma-exposure
percentile position, call/put IV skew, and the 3-point spot trend over
historical_data[-3:]. -/
def direction_score (cd : CurrentData) (hd : List HistPoint) : ℤ :=
  let s_ce : ℤ :=
    if cd.ce_itm_chg_oi < -10000 then 3
    else if cd.ce_itm_chg_oi < 0 then 2
    else 0
  let s_pe : ℤ :=
    if cd.pe_itm_chg_oi < -10000 then -3
    else if cd.pe_itm_chg_oi < 0 then -2
    else 0
  let pcr : ℚ := if cd.ce_oi_total > 0 then cd.pe_oi_total / cd.ce_oi_total else 1
  let s_pcr : ℤ := if pcr < 0.7 then 1 else if pcr > 1.3 then -1 else 0
  let hg := hd.map (fun d => d.net_gex)
  let s_gex : ℤ :=
    if hg.length ≥ 5 then
      if cd.net_gex > npPercentile hg 75 then -2
      else if cd.net_gex < npPercentile hg 25 then 2
      else 0
    else 0
  let s_skew : ℤ :=
    if cd.ce_iv_avg > 0 ∧ cd.pe_iv_avg > 0 then
      if cd.ce_iv_avg > cd.pe_iv_avg * 1.1 then -1
      else if cd.pe_iv_avg > cd.ce_iv_avg * 1.1 then 1
      else 0
    else 0
  let s_spot : ℤ :=
    if hd.length ≥ 3 then
      let recent_spots := (hd.drop (hd.length - 3)).map (fun d => d.spot_price)
      if strictDecChain recent_spots then -2
      else if strictIncChain recent_spots then 2
      else 0
    else 0
  s_ce + s_pe + s_pcr + s_gex + s_skew + s_spot

/-- The fixed weights of the six sub-signals, in source order
(src/background_service.py lines 297-304). -/
def blastWeights : List ℚ := [0.25, 0.30, 0.20, 0.10, 0.10, 0.05]

/-- AdaptiveGammaBlastDetector.detect_gamma_blast
(src/background_service.py lines 98-409): weighted probability capped at
0.95, integer direction score mapped to UPSIDE / DOWNSIDE / NEUTRAL,
confidence from probability and trigger count, time-to-blast always absent,
and risk level from probability alone. -/
def detect_gamma_blast (symbol : String) (cd : CurrentData) (hd : List HistPoint) :
    GammaBlastSignal :=
  let sIV := signal_iv cd hd
  let sOI := signal_oi_accel cd hd
  let sGC := signal_gamma_conc cd hd
  let sPR := signal_pin_risk cd
  let sGF := signal_gex_flip cd hd
  let sGE := signal_gex_extreme cd hd
  let triggers := sIV.2 ++ sOI.2 ++ sGC.2 ++ sPR.2 ++ sGF.2 ++ sGE.2
  let weighted :=
    sIV.1 * 0.25 + sOI.1 * 0.30 + sGC.1 * 0.20 + sPR.1 * 0.10 +
      sGF.1 * 0.10 + sGE.1 * 0.05
  let probability := min 0.95 weighted
  let ds := direction_score cd hd
  let direction := if ds ≥ 2 then "UPSIDE" else if ds ≤ -2 then "DOWNSIDE" else "NEUTRAL"
  let confidence :=
    if probability > 0.7 ∧ triggers.length ≥ 4 then "CRITICAL"
    else if probability > 0.6 ∧ triggers.length ≥ 3 then "VERY_HIGH"
    else if probability > 0.4 then "HIGH"
    else if probability > 0.25 then "MEDIUM"
    else "LOW"
  let risk_level :=
    if probability > 0.75 then "EXTREME"
    else if probability > 0.6 then "HIGH"
    else if probability > 0.4 then "ELEVATED"
    else "LOW"
  { probability := probability
    direction := direction
    confidence := confidence
    time_to_blast_min := none
    triggers := triggers
    risk_level := risk_level }

/-- One row of the velocity-history read (src/background_service.py lines
1394-1400): SELECT atm_iv, atm_oi, timestamp, gamma_concentration ordered by
timestamp descending, LIMIT 10.  Fields hold the float-converted values
(None becomes 0 at lines 1412-1413 and 1429-1431); ts is the timestamp in
epoch seconds. -/
structure GexHistRow where
  atm_iv : ℚ
  atm_oi : ℚ
  ts : ℚ
  gamma_concentration : ℚ
deriving DecidableEq

/-- Worker of the duplicate-discarding walk (lines 1406-1423): prev holds the
(OI, IV) of the previously accepted record, acc the accepted records in
reverse order; the walk stops as soon as 3 records are accepted. -/
def filterChangedAux : List GexHistRow → Option (ℚ × ℚ) → List GexHistRow → List GexHistRow
  | [], _, acc => acc.reverse
  | r :: rest, prev, acc =>
    if (match prev with
        | none => true
        | some (prev_oi, prev_iv) =>
          decide (r.atm_oi ≠ prev_oi) || decide (r.atm_iv ≠ prev_iv)) then
      if (r :: acc).length ≥ 3 then (r :: acc).reverse
      else filterChangedAux rest (some (r.atm_oi, r.atm_iv)) (r :: acc)
    else filterChangedAux rest prev acc

/-- Filter for records where OI or IV actually changed (lines 1406-1423):
walk from the most recent stored row, keep a row when it is the first or its
OI / IV differ from the previously accepted row, stop after 3 accepted. -/
def filterChangedRecords (rows : List GexHistRow) : List GexHistRow :=
  filterChangedAux rows none []

/-- Rational division that models Python division: dividing by zero is a
ZeroDivisionError, returned as an error value. -/
def qdiv (a b : ℚ) : Except Unit ℚ :=
  if b = 0 then Except.error () else Except.ok (a / b)

/-- Derivative outputs of the velocity / acceleration / unwinding block. -/
structure DerivOut where
  iv_velocity : ℚ
  oi_velocity : ℚ
  oi_acceleration : ℚ
  unwinding_intensity : ℚ
  gamma_conc_trend : ℚ
  iv_trend : ℚ
  total_oi_change_rate : ℚ
deriving DecidableEq

/-- Class-specific velocity cap for IV (line 1444). -/
def iv_cap (is_index : Bool) : ℚ := if is_index then 0.16 else 10

/-- Class-specific velocity cap for OI (line 1445). -/
def oi_cap (is_index : Bool) : ℚ := if is_index then 1666 else 100000

/-- Class-specific acceleration cap (line 1446). -/
def accel_cap (is_index : Bool) : ℚ := if is_index then 166 else 10000

/-- Time divisor (line 1441): elapsed seconds for INDEX-class symbols,
elapsed minutes for EQUITY-class symbols. -/
def timeDivisor (is_index : Bool) (time_diff_seconds : ℚ) : ℚ :=
  if is_index then time_diff_seconds else time_diff_seconds / 60

/-- IV velocity (lines 1450-1455): (atm_iv - p1_iv) / time_divisor, clamped,
when p1_iv > 0 and the IV changed; else 0.  The division carries no guard on
time_divisor. -/
def ivVelocityE (is_index : Bool) (time_divisor atm_iv p1_iv : ℚ) : Except Unit ℚ :=
  if p1_iv > 0 ∧ atm_iv ≠ p1_iv then do
    let v ← qdiv (atm_iv - p1_iv) time_divisor
    pure (max (-(iv_cap is_index)) (min (iv_cap is_index) v))
  else pure 0

/-- OI velocity (lines 1457-1463): (atm_oi - p1_oi) / time_divisor, clamped,
when the OI changed; else 0.  The division carries no guard on
time_divisor. -/
def oiVelocityE (is_index : Bool) (time_divisor atm_oi p1_oi : ℚ) : Except Unit ℚ :=
  if atm_oi ≠ p1_oi then do
    let v ← qdiv (atm_oi - p1_oi) time_divisor
    pure (max (-(oi_cap is_index)) (min (oi_cap is_index) v))
  else pure 0

/-- OI acceleration (lines 1465-1488): needs a second distinct point p2; the
previous velocity is guarded by p1_oi ≠ p2_oi and prev_time_divisor > 0, but
the acceleration itself divides by the current time_divisor without a
guard. -/
def oiAccelerationE (is_index : Bool) (time_divisor oi_velocity : ℚ)
    (p1 : GexHistRow) (rest : List GexHistRow) : Except Unit ℚ :=
  match rest with
  | p2 :: _ => do
    let prev_time_divisor := timeDivisor is_index (p1.ts - p2.ts)
    if p1.atm_oi ≠ p2.atm_oi ∧ prev_time_divisor > 0 then do
      let prev_oi_velocity :=
        max (-(oi_cap is_index))
          (min (oi_cap is_index) ((p1.atm_oi - p2.atm_oi) / prev_time_divisor))
      let a ← qdiv (oi_velocity - prev_oi_velocity) time_divisor
      pure (max (-(accel_cap is_index)) (min (accel_cap is_index) a))
    else pure 0
  | [] => pure 0

/-- Unwinding intensity (lines 1490-1507): when OI decreased, the percentage
of the previous OI closed, per hour, capped at 100; the hour division is
guarded by time_hours > 0. -/
def unwindingIntensity (time_diff_seconds atm_oi starting_oi : ℚ) : ℚ :=
  if starting_oi > 0 ∧ atm_oi - starting_oi < 0 then
    min 100
      (if time_diff_seconds / 3600 > 0 then
        (|(atm_oi - starting_oi) / starting_oi| * 100) / (time_diff_seconds / 3600)
      else 0)
  else 0

/-- Gamma concentration trend (line 1510): (gamma - p1_gamma) / time_divisor
when p1_gamma is truthy (nonzero) and the concentration changed; the division
carries no guard on time_divisor. -/
def gammaTrendE (time_divisor gamma_concentration p1_gamma : ℚ) : Except Unit ℚ :=
  if p1_gamma ≠ 0 ∧ gamma_concentration ≠ p1_gamma then
    qdiv (gamma_concentration - p1_gamma) time_divisor
  else pure 0

/-- Velocity / acceleration / unwinding-intensity block of
OptionChainBackgroundService._calculate_and_store_gamma_exposure
(src/background_service.py lines 1426-1530), applied to the current fetch and
the duplicate-filtered history.  now is the current fetch timestamp
(datetime.now at line 1439).  The divisions by time_divisor (iv velocity, oi
velocity, oi acceleration, gamma concentration trend) carry no guard on the
divisor in the source and are modelled with qdiv; the previous-velocity
division is guarded by prev_time_divisor > 0 in the source and the
unwinding-intensity division by time_hours > 0. -/
def computeDerivatives (is_index : Bool) (now : ℚ)
    (atm_iv atm_oi gamma_concentration total_oi : ℚ) :
    List GexHistRow → Except Unit DerivOut
  | [] => Except.ok ⟨0, 0, 0, 0, 0, 0, 0⟩
  | p1 :: rest =>
    if atm_oi ≠ p1.atm_oi ∨ atm_iv ≠ p1.atm_iv then do
      let time_divisor := timeDivisor is_index (now - p1.ts)
      let iv_velocity ← ivVelocityE is_index time_divisor atm_iv p1.atm_iv
      let oi_velocity ← oiVelocityE is_index time_divisor atm_oi p1.atm_oi
      let oi_acceleration ← oiAccelerationE is_index time_divisor oi_velocity p1 rest
      let gamma_conc_trend ←
        gammaTrendE time_divisor gamma_concentration p1.gamma_concentration
      let iv_trend : ℚ := if atm_iv > p1.atm_iv then 1 else if atm_iv < p1.atm_iv then -1 else 0
      let total_oi_change_rate : ℚ := if total_oi > 0 then oi_velocity / total_oi else 0
      pure ⟨iv_velocity, oi_velocity, oi_acceleration,
        unwindingIntensity (now - p1.ts) atm_oi p1.atm_oi,
        gamma_conc_trend, iv_trend, total_oi_change_rate⟩
    else Except.ok ⟨0, 0, 0, 0, 0, 0, 0⟩

/-- Success test for an Except value. -/
def isOkE {α : Type} : Except Unit α → Bool
  | Except.ok _ => true
  | Except.error _ => false

/-- Primary key of gamma_exposure_history (src/database.py line 318):
(timestamp, symbol, expiry_date).  The timestamp column is TIMESTAMPTZ and
the row timestamp is datetime.now(IST) (src/background_service.py line 1618),
so the key carries full microsecond precision, modelled as a rational count
of epoch seconds. -/
structure GammaKey where
  timestamp : ℚ
  symbol : String
  expiry_date : String
deriving DecidableEq

/-- One row of gamma_exposure_history, with the columns of the INSERT at
src/database.py lines 767-781. -/
structure GammaRow where
  timestamp : ℚ
  symbol : String
  expiry_date : String
  atm_strike : ℚ
  net_gex : ℚ
  total_positive_gex : ℚ
  total_negative_gex : ℚ
  zero_gamma_level : ℚ
  atm_iv : ℚ
  iv_trend : ℚ
  iv_velocity : ℚ
  iv_percentile : ℚ
  implied_move : ℚ
  atm_oi : ℚ
  oi_acceleration : ℚ
  oi_velocity : ℚ
  total_oi_change_rate : ℚ
  atm_gamma : ℚ
  gamma_concentration : ℚ
  gamma_gradient : ℚ
  delta_skew : ℚ
  delta_ladder_imbalance : ℚ
  volatility_regime : String
  regime_transition_score : ℚ
  gamma_blast_probability : ℚ
  time_to_blast_minutes : Option ℤ
  predicted_direction : String
  confidence_level : String
deriving DecidableEq

/-- The primary-key projection of a row. -/
def rowKey (r : GammaRow) : GammaKey := ⟨r.timestamp, r.symbol, r.expiry_date⟩

/-- TimescaleDBManager.insert_gamma_exposure_history (src/database.py lines
764-820): INSERT ... ON CONFLICT (timestamp, symbol, expiry_date) DO UPDATE
SET every non-key column to the EXCLUDED value.  On a key conflict the stored
row becomes the incoming row (the key columns are equal and every other
column is overwritten); otherwise the row is appended. -/
def insert_gamma_exposure_history (table : List GammaRow) (r : GammaRow) : List GammaRow :=
  if table.any (fun x => decide (rowKey x = rowKey r)) then
    table.map (fun x => if rowKey x = rowKey r then r else x)
  else table ++ [r]

/-- Number of stored rows with the given primary key. -/
def countKey (table : List GammaRow) (k : GammaKey) : ℕ :=
  (table.filter (fun x => decide (rowKey x = k))).length

/-- Number of stored summary rows for a (symbol, expiry) pair. -/
def countSymbolExpiry (table : List GammaRow) (s e : String) : ℕ :=
  (table.filter (fun x => decide (x.symbol = s) && decide (x.expiry_date = e))).length

/-- A summary row as produced by one pipeline run that stored at time t:
byte-identical upstream responses make every non-timestamp field identical
across runs, so the runs differ only in the datetime.now value t. -/
def sampleRow (t : ℚ) : GammaRow :=
  { timestamp := t
    symbol := "NIFTY"
    expiry_date := "2025-10-16"
    atm_strike := 25000
    net_gex := 1000
    total_positive_gex := 2000
    total_negative_gex := -1000
    zero_gamma_level := 25000
    atm_iv := 12
    iv_trend := 0
    iv_velocity := 0
    iv_percentile := 0.5
    implied_move := 300
    atm_oi := 500000
    oi_acceleration := 0
    oi_velocity := 0
    total_oi_change_rate := 0
    atm_gamma := 0.002
    gamma_concentration := 0.4
    gamma_gradient := 0
    delta_skew := 0
    delta_ladder_imbalance := 0
    volatility_regime := "NORMAL"
    regime_transition_score := 0
    gamma_blast_probability := 0.1
    time_to_blast_minutes := none
    predicted_direction := "NEUTRAL"
    confidence_level := "LOW" }

/-- A wall-clock instant in the local (IST) calendar: the calendar day index
and the minutes elapsed since local midnight. -/
structure LocalDateTime where
  day : ℤ
  minutes : ℚ
deriving DecidableEq

/-- Local market close, 15:30 IST, in minutes since midnight
(src/background_service.py line 775). -/
def marketCloseMinutes : ℚ := 15 * 60 + 30

/-- Outcome of one option-contracts API call as classified by
_get_latest_expiry (src/background_service.py lines 791-852): a rate-limit
error body (UDAPI10005 / Too Many Request), a successful contracts payload
with the expiry dates it contains (a response whose data holds no expiry
dates behaves as contracts []), or any other error or exception, which is
retried and then abandoned. -/
inductive ContractsResp where
  | rateLimited
  | contracts (expiries : List ℤ)
  | otherError
deriving DecidableEq

/-- Observable outcome of one _get_latest_expiry call: the returned expiry,
whether the daily-cache fast path answered, whether the stale-cache fallback
answered after rate-limit retries exhausted, how many API calls were made,
the rate-limit backoff sleeps in order, the pre-call delay sleeps, and the
expiry newly written to the cache (none when the cache is untouched). -/
structure ExpiryFetchResult where
  expiry : Option ℤ
  usedDailyCache : Bool
  usedStaleFallback : Bool
  apiCalls : ℕ
  backoffWaits : List ℚ
  preCallDelays : List ℚ
  newCache : Option ℤ
deriving DecidableEq

/-- Pre-call delay of attempt a (lines 783, 788): base_delay = 0.1 doubled
per attempt after the first. -/
def preCallDelay (attempt : ℕ) : ℚ :=
  if attempt > 0 then (1 / 10) * 2 ^ attempt else 1 / 10

/-- Rate-limit backoff before the retry that follows attempt a (line 799):
retry_wait = 5 * 2 ** attempt. -/
def rateLimitBackoff (attempt : ℕ) : ℚ := 5 * 2 ^ attempt

/-- Ascending sort of integer dates. -/
def sortZ (l : List ℤ) : List ℤ := l.insertionSort (· ≤ ·)

/-- sorted(\x7bc[expiry] ...\x7d) filtered to today-or-future (lines 814-818):
deduplicate, sort ascending, keep dates ≥ today. -/
def sortedFutureExpiries (today : ℤ) (ds : List ℤ) : List ℤ :=
  (sortZ ds.dedup).filter (fun d => decide (today ≤ d))

/-- Handling of one API response inside the retry loop of _get_latest_expiry
(src/background_service.py lines 791-852).  rest holds the attempt indices
still available, so a retry remains exactly when rest is nonempty (attempt <
max_retries - 1); r is the outcome of continuing with those attempts.  On
rateLimited with a retry remaining the loop sleeps the backoff and continues;
with no retry remaining it answers from the stale cache if present (line
806), else None.  On a contracts payload it returns the earliest
today-or-future expiry (caching it) or None — ignoring r, since the loop
stops.  On any other error or exception it retries after sleeping the
pre-call delay again, and on the final attempt returns None. -/
def expiryRespCase (today : ℤ) (cachedVal : Option ℤ) (attempt : ℕ) (rest : List ℕ)
    (r : ExpiryFetchResult) : ContractsResp → ExpiryFetchResult
  | ContractsResp.rateLimited =>
    if rest ≠ [] then
      ⟨r.expiry, r.usedDailyCache, r.usedStaleFallback, r.apiCalls + 1,
        rateLimitBackoff attempt :: r.backoffWaits,
        preCallDelay attempt :: r.preCallDelays, r.newCache⟩
    else
      match cachedVal with
      | some e => ⟨some e, false, true, 1, [], [preCallDelay attempt], none⟩
      | none => ⟨none, false, false, 1, [], [preCallDelay attempt], none⟩
  | ContractsResp.contracts ds =>
    match (sortedFutureExpiries today ds).head? with
    | some e => ⟨some e, false, false, 1, [], [preCallDelay attempt], some e⟩
    | none => ⟨none, false, false, 1, [], [preCallDelay attempt], none⟩
  | ContractsResp.otherError =>
    if rest ≠ [] then
      ⟨r.expiry, r.usedDailyCache, r.usedStaleFallback, r.apiCalls + 1,
        r.backoffWaits, preCallDelay attempt :: preCallDelay attempt :: r.preCallDelays,
        r.newCache⟩
    else ⟨none, false, false, 1, [], [preCallDelay attempt], none⟩

/-- Retry loop of _get_latest_expiry (src/background_service.py lines
785-854) over the remaining attempt indices (for attempt in
range(max_retries), so the list is List.range max_retries); each attempt
classifies its response through expiryRespCase. -/
def get_latest_expiry_go (api : ℕ → ContractsResp) (today : ℤ) (cachedVal : Option ℤ) :
    List ℕ → ExpiryFetchResult
  | [] => ⟨none, false, false, 0, [], [], none⟩
  | attempt :: rest =>
    expiryRespCase today cachedVal attempt rest
      (get_latest_expiry_go api today cachedVal rest) (api attempt)

/-- OptionChainBackgroundService._get_latest_expiry (src/background_service.py
lines 764-854) for one cache key.  cache holds the cached (expiry, day it was
cached) when present.  The daily-cache fast path answers without any API call
exactly when the entry was cached today and the current local time is before
market close; otherwise the retry loop runs with max_retries = 2. -/
def get_latest_expiry (cache : Option (ℤ × ℤ)) (now : LocalDateTime)
    (api : ℕ → ContractsResp) : ExpiryFetchResult :=
  match cache with
  | some (cachedExpiry, cacheDay) =>
    if cacheDay = now.day ∧ now.minutes < marketCloseMinutes then
      ⟨some cachedExpiry, true, false, 0, [], [], none⟩
    else get_latest_expiry_go api now.day (some cachedExpiry) (List.range 2)
  | none => get_latest_expiry_go api now.day none (List.range 2)

/-- Scenario D of the spec: CE ITM change-in-OI -15000, PE ITM change-in-OI
0, put/call OI ratio 900/1000 = 0.9, zero average IVs, and no history. -/
def scenarioD_current : CurrentData :=
  { atm_iv := 0
    atm_oi := 0
    gamma_concentration := 0
    net_gex := 0
    spot_price := 0
    atm_strike := 0
    ce_oi_total := 1000
    pe_oi_total := 900
    ce_iv_avg := 0
    pe_iv_avg := 0
    ce_itm_chg_oi := -15000
    pe_itm_chg_oi := 0 }

theorem qdiv_ok {a b : ℚ} (h : b ≠ 0) : qdiv a b = Except.ok (a / b) := if_neg h

theorem signal_iv_nonneg (cd : CurrentData) (hd : List HistPoint) :
    0 ≤ (signal_iv cd hd).1 := by
  unfold signal_iv
  dsimp only
  split_ifs <;> first
  | exact le_max_left 0 _
  | norm_num

theorem signal_oi_accel_nonneg (cd : CurrentData) (hd : List HistPoint) :
    0 ≤ (signal_oi_accel cd hd).1 := by
  unfold signal_oi_accel
  dsimp only
  split_ifs <;> first
  | exact le_max_left 0 _
  | norm_num

theorem signal_gamma_conc_nonneg (cd : CurrentData) (hd : List HistPoint) :
    0 ≤ (signal_gamma_conc cd hd).1 := by
  unfold signal_gamma_conc
  dsimp only
  split_ifs <;> first
  | exact le_max_left 0 _
  | norm_num

theorem signal_pin_risk_nonneg (cd : CurrentData) :
    0 ≤ (signal_pin_risk cd).1 := by
  unfold signal_pin_risk
  dsimp only
  split_ifs <;> norm_num

theorem signal_gex_flip_nonneg (cd : CurrentData) (hd : List HistPoint) :
    0 ≤ (signal_gex_flip cd hd).1 := by
  unfold signal_gex_flip
  rcases hl : (hd.map fun d => d.net_gex).getLast? with _ | pg
  · simp only [hl]
    norm_num
  · simp only [hl]
    split_ifs <;> norm_num

theorem signal_gex_extreme_nonneg (cd : CurrentData) (hd : List HistPoint) :
    0 ≤ (signal_gex_extreme cd hd).1 := by
  unfold signal_gex_extreme
  dsimp only
  split_ifs <;> norm_num

/-- C4.  The claim quantifies over every fallback threshold; the code returns
0 whenever the fallback threshold is not positive, even when current exceeds
it (src/background_service.py lines 92-96): with current = 1, no history and
fallback threshold 0, the claimed result is 1 but the code returns 0. -/
theorem C4_counterexample :
    calculate_z_score_or_threshold 1 ([] : List ℚ) 0 = 0 ∧ (0 : ℚ) < 1 := by
  constructor
  · rfl
  · norm_num

/-- C4 (amended): for fewer than 3 historical points the fallback tier is
deterministic over \x7b0, 1\x7d for every positive fallback threshold — 1 when
current exceeds the threshold, 0 otherwise — while a non-positive fallback
threshold always yields 0. -/
theorem C4_fallback_tier (current : ℚ) (historical : List ℚ) (fallback_threshold : ℚ)
    (h : historical.length < 3) :
    (0 < fallback_threshold →
      calculate_z_score_or_threshold current historical fallback_threshold
        = if fallback_threshold < current then 1 else 0)
    ∧ (fallback_threshold ≤ 0 →
      calculate_z_score_or_threshold current historical fallback_threshold = 0) := by
  have h10 : ¬ (historical.length ≥ 10) := by omega
  have h3 : ¬ (historical.length ≥ 3) := by omega
  unfold calculate_z_score_or_threshold
  rw [if_neg h10, if_neg h3]
  constructor
  · intro hfb
    rw [if_pos hfb]
  · intro hfb
    rw [if_neg (not_lt.mpr hfb)]

theorem C4_witness : calculate_z_score_or_threshold 31 ([] : List ℚ) 30 = 1 := by
  have h := (C4_fallback_tier 31 [] 30 (by decide)).1 (by norm_num)
  rw [if_pos (by norm_num : (30 : ℚ) < 31)] at h
  exact h

/-- C7: with at least 10 historical points whose variance (equivalently,
standard deviation) is zero, the three-tier normalization returns 0 — the
z-score division is guarded by std > 0, so no division by zero occurs. -/
theorem C7_zero_std (current : ℚ) (historical : List ℚ) (fallback_threshold : ℚ)
    (h10 : historical.length ≥ 10) (hvar : npVar historical = 0) :
    calculate_z_score_or_threshold current historical fallback_threshold = 0 := by
  have hstd : npStd historical = 0 := by
    unfold npStd
    rw [hvar]
    have h0 := Rat.sqrt_eq (0 : ℚ)
    rw [mul_zero, abs_zero] at h0
    exact h0
  unfold calculate_z_score_or_threshold
  rw [if_pos h10]
  simp [hstd]

theorem C7_witness :
    calculate_z_score_or_threshold 3 (List.replicate 10 (7 : ℚ)) 0 = 0 := by
  have hm : npMean (List.replicate 10 (7 : ℚ)) = 7 := by
    norm_num [npMean, List.sum_replicate, smul_eq_mul]
  have hv : npVar (List.replicate 10 (7 : ℚ)) = 0 := by
    norm_num [npVar, hm, List.map_replicate, List.sum_replicate]
  exact C7_zero_std 3 (List.replicate 10 (7 : ℚ)) 0 (by norm_num) hv

/-- C9: the time-to-blast field of the returned BlastSignal is always
absent; the detector never fabricates a timing estimate
(src/background_service.py lines 388-390, 406). -/
theorem C9_no_time_estimate (symbol : String) (cd : CurrentData) (hd : List HistPoint) :
    (detect_gamma_blast symbol cd hd).time_to_blast_min = none := rfl

/-- C1: for every input, the probability of the returned BlastSignal lies in
[0, 0.95] — each of the six sub-signals is non-negative, the fixed weights
sum to 1, and the weighted sum is clamped to at most 0.95
(src/background_service.py lines 296-308). -/
theorem C1_probability_in_range (symbol : String) (cd : CurrentData) (hd : List HistPoint) :
    (0 ≤ (detect_gamma_blast symbol cd hd).probability
      ∧ (detect_gamma_blast symbol cd hd).probability ≤ 0.95)
    ∧ 0 ≤ (signal_iv cd hd).1 ∧ 0 ≤ (signal_oi_accel cd hd).1
    ∧ 0 ≤ (signal_gamma_conc cd hd).1 ∧ 0 ≤ (signal_pin_risk cd).1
    ∧ 0 ≤ (signal_gex_flip cd hd).1 ∧ 0 ≤ (signal_gex_extreme cd hd).1
    ∧ blastWeights.sum = 1 := by
  have h1 := signal_iv_nonneg cd hd
  have h2 := signal_oi_accel_nonneg cd hd
  have h3 := signal_gamma_conc_nonneg cd hd
  have h4 := signal_pin_risk_nonneg cd
  have h5 := signal_gex_flip_nonneg cd hd
  have h6 := signal_gex_extreme_nonneg cd hd
  have hp : (detect_gamma_blast symbol cd hd).probability
      = min 0.95 ((signal_iv cd hd).1 * 0.25 + (signal_oi_accel cd hd).1 * 0.30
          + (signal_gamma_conc cd hd).1 * 0.20 + (signal_pin_risk cd).1 * 0.10
          + (signal_gex_flip cd hd).1 * 0.10 + (signal_gex_extreme cd hd).1 * 0.05) := rfl
  refine ⟨⟨?_, ?_⟩, h1, h2, h3, h4, h5, h6, ?_⟩
  · rw [hp]
    exact le_min (by norm_num) (by nlinarith)
  · rw [hp]
    exact min_le_left _ _
  · norm_num [blastWeights]

/-- C8: scenario D — CE ITM change-in-OI -15000, PE ITM change-in-OI 0,
put/call OI ratio 0.9, no GEX percentile data, no IV skew, fewer than 3 rows
for the spot trend — yields net direction score +3 and direction UPSIDE; in
general the direction is UPSIDE when the score is at least +2, DOWNSIDE when
at most -2, and NEUTRAL otherwise (src/background_service.py lines 310-372). -/
theorem C8_direction_upside :
    direction_score scenarioD_current [] = 3
    ∧ (detect_gamma_blast "NIFTY" scenarioD_current []).direction = "UPSIDE"
    ∧ ∀ (symbol : String) (cd : CurrentData) (hd : List HistPoint),
        (detect_gamma_blast symbol cd hd).direction =
          if direction_score cd hd ≥ 2 then "UPSIDE"
          else if direction_score cd hd ≤ -2 then "DOWNSIDE"
          else "NEUTRAL" := by
  have hgen : ∀ (symbol : String) (cd : CurrentData) (hd : List HistPoint),
      (detect_gamma_blast symbol cd hd).direction =
        if direction_score cd hd ≥ 2 then "UPSIDE"
        else if direction_score cd hd ≤ -2 then "DOWNSIDE"
        else "NEUTRAL" := fun _ _ _ => rfl
  have hds : direction_score scenarioD_current [] = 3 := by
    norm_num [direction_score, scenarioD_current]
  refine ⟨hds, ?_, hgen⟩
  rw [hgen, hds]
  norm_num

theorem filterChangedAux_length_le (l : List GexHistRow) :
    ∀ (prev : Option (ℚ × ℚ)) (acc : List GexHistRow), acc.length < 3 →
      (filterChangedAux l prev acc).length ≤ 3 := by
  induction l with
  | nil =>
    intro prev acc h
    unfold filterChangedAux
    simp only [List.length_reverse]
    omega
  | cons r rest ih =>
    intro prev acc h
    unfold filterChangedAux
    split
    · split
      · simp only [List.length_reverse, List.length_cons]
        omega
      · exact ih _ _ (by simp only [List.length_cons] at *; omega)
    · exact ih _ _ h

theorem filterChangedAux_all_dup (rest : List GexHistRow) (r0 : GexHistRow)
    (h : ∀ r ∈ rest, r.atm_oi = r0.atm_oi ∧ r.atm_iv = r0.atm_iv) :
    filterChangedAux rest (some (r0.atm_oi, r0.atm_iv)) [r0] = [r0] := by
  induction rest with
  | nil => rfl
  | cons r rs ih =>
    obtain ⟨ho, hi⟩ := h r (by simp)
    unfold filterChangedAux
    rw [if_neg (by simp [ho, hi])]
    exact ih (fun x hx => h x (by simp [hx]))

theorem filterChangedRecords_all_dup (r0 : GexHistRow) (rest : List GexHistRow)
    (h : ∀ r ∈ rest, r.atm_oi = r0.atm_oi ∧ r.atm_iv = r0.atm_iv) :
    filterChangedRecords (r0 :: rest) = [r0] := by
  unfold filterChangedRecords filterChangedAux
  rw [if_pos (by simp), if_neg (by simp)]
  exact filterChangedAux_all_dup rest r0 h

theorem timeDivisor_ne_zero (is_index : Bool) {d : ℚ} (h : 0 < d) :
    timeDivisor is_index d ≠ 0 := by
  unfold timeDivisor
  split
  · exact ne_of_gt h
  · exact ne_of_gt (by positivity)

theorem isOkE_bind {α β : Type} (x : Except Unit α) (f : α → Except Unit β)
    (hx : isOkE x = true) (hf : ∀ v, isOkE (f v) = true) : isOkE (x >>= f) = true := by
  cases x with
  | ok v => exact hf v
  | error e => simp [isOkE] at hx

theorem isOkE_pure {α : Type} (v : α) : isOkE (pure v : Except Unit α) = true := rfl

theorem ok_bind {α β : Type} (v : α) (f : α → Except Unit β) :
    (Except.ok v : Except Unit α) >>= f = f v := rfl

theorem pure_bind_e {α β : Type} (v : α) (f : α → Except Unit β) :
    (pure v : Except Unit α) >>= f = f v := rfl

theorem ivVelocityE_ok (is_index : Bool) {td : ℚ} (atm_iv p1_iv : ℚ) (hd : td ≠ 0) :
    isOkE (ivVelocityE is_index td atm_iv p1_iv) = true := by
  unfold ivVelocityE
  split
  · rw [qdiv_ok hd, ok_bind]
    rfl
  · rfl

theorem oiVelocityE_ok (is_index : Bool) {td : ℚ} (atm_oi p1_oi : ℚ) (hd : td ≠ 0) :
    isOkE (oiVelocityE is_index td atm_oi p1_oi) = true := by
  unfold oiVelocityE
  split
  · rw [qdiv_ok hd, ok_bind]
    rfl
  · rfl

theorem oiAccelerationE_ok (is_index : Bool) {td : ℚ} (oi_velocity : ℚ)
    (p1 : GexHistRow) (rest : List GexHistRow) (hd : td ≠ 0) :
    isOkE (oiAccelerationE is_index td oi_velocity p1 rest) = true := by
  unfold oiAccelerationE
  rcases rest with _ | ⟨p2, tail⟩
  · rfl
  · dsimp only
    split
    · rw [qdiv_ok hd, ok_bind]
      rfl
    · rfl

theorem gammaTrendE_ok {td : ℚ} (gamma_concentration p1_gamma : ℚ) (hd : td ≠ 0) :
    isOkE (gammaTrendE td gamma_concentration p1_gamma) = true := by
  unfold gammaTrendE
  split
  · rw [qdiv_ok hd]
    rfl
  · rfl

theorem isOkE_exists {α : Type} {x : Except Unit α} (h : isOkE x = true) :
    ∃ v, x = Except.ok v := by
  cases x with
  | ok v => exact ⟨v, rfl⟩
  | error e => simp [isOkE] at h

theorem computeDerivatives_ok (is_index : Bool)
    (now atm_iv atm_oi gamma_concentration total_oi : ℚ)
    (p1 : GexHistRow) (rest : List GexHistRow)
    (hts : p1.ts < now) :
    isOkE (computeDerivatives is_index now atm_iv atm_oi gamma_concentration total_oi
      (p1 :: rest)) = true := by
  have hd : timeDivisor is_index (now - p1.ts) ≠ 0 :=
    timeDivisor_ne_zero is_index (by linarith)
  simp only [computeDerivatives]
  by_cases hch : (atm_oi ≠ p1.atm_oi ∨ atm_iv ≠ p1.atm_iv)
  · rw [if_pos hch]
    obtain ⟨v1, hv1⟩ := isOkE_exists (ivVelocityE_ok is_index atm_iv p1.atm_iv hd)
    obtain ⟨v2, hv2⟩ := isOkE_exists (oiVelocityE_ok is_index atm_oi p1.atm_oi hd)
    obtain ⟨v3, hv3⟩ := isOkE_exists (oiAccelerationE_ok is_index v2 p1 rest hd)
    obtain ⟨v4, hv4⟩ :=
      isOkE_exists (gammaTrendE_ok gamma_concentration p1.gamma_concentration hd)
    rw [hv1, ok_bind, hv2, ok_bind, hv3, ok_bind, hv4, ok_bind]
    rfl
  · rw [if_neg hch]
    rfl

theorem oiVelocityE_eq (is_index : Bool) {td : ℚ} (atm_oi p1_oi : ℚ)
    (hne : atm_oi ≠ p1_oi) (hd : td ≠ 0) :
    oiVelocityE is_index td atm_oi p1_oi
      = Except.ok (max (-(oi_cap is_index))
          (min (oi_cap is_index) ((atm_oi - p1_oi) / td))) := by
  unfold oiVelocityE
  rw [if_pos hne, qdiv_ok hd, ok_bind]
  rfl

/-- C2: with a stored history of pairwise-identical rows (duplicate upstream
responses) and a current fetch that differs, the duplicate-discarding walk
keeps exactly the most recent accepted row (the last distinct row), so the OI
velocity is (current - last-distinct-value) / Δt with Δt measured from that
accepted row, not from any of the discarded duplicate rows (whose timestamps
do not enter the computation at all); the walk keeps at most 3 rows of the
(at most 10) read. -/
theorem C2_velocity_last_distinct :
    (∀ rows : List GexHistRow, (filterChangedRecords rows).length ≤ 3)
    ∧ ∀ (is_index : Bool) (now atm_iv atm_oi gamma_concentration total_oi : ℚ)
        (r0 : GexHistRow) (rest : List GexHistRow),
        (∀ r ∈ rest, r.atm_oi = r0.atm_oi ∧ r.atm_iv = r0.atm_iv) →
        atm_oi ≠ r0.atm_oi → r0.ts < now →
        filterChangedRecords (r0 :: rest) = [r0]
        ∧ ∃ out : DerivOut,
            computeDerivatives is_index now atm_iv atm_oi gamma_concentration total_oi
              (filterChangedRecords (r0 :: rest)) = Except.ok out
            ∧ out.oi_velocity = max (-(oi_cap is_index)) (min (oi_cap is_index)
                ((atm_oi - r0.atm_oi) / timeDivisor is_index (now - r0.ts))) := by
  refine ⟨fun rows => filterChangedAux_length_le rows none [] (by simp), ?_⟩
  intro is_index now atm_iv atm_oi gamma_concentration total_oi r0 rest hdup hne hts
  have hf := filterChangedRecords_all_dup r0 rest hdup
  refine ⟨hf, ?_⟩
  rw [hf]
  have hd : timeDivisor is_index (now - r0.ts) ≠ 0 :=
    timeDivisor_ne_zero is_index (by linarith)
  simp only [computeDerivatives]
  rw [if_pos (Or.inl hne)]
  obtain ⟨v1, hv1⟩ := isOkE_exists (ivVelocityE_ok is_index atm_iv r0.atm_iv hd)
  have hv2 := oiVelocityE_eq is_index atm_oi r0.atm_oi hne hd
  obtain ⟨v4, hv4⟩ :=
    isOkE_exists (gammaTrendE_ok gamma_concentration r0.gamma_concentration hd)
  rw [hv1, ok_bind, hv2, ok_bind]
  rw [show oiAccelerationE is_index (timeDivisor is_index (now - r0.ts))
        (max (-(oi_cap is_index)) (min (oi_cap is_index)
          ((atm_oi - r0.atm_oi) / timeDivisor is_index (now - r0.ts)))) r0 []
      = pure 0 from rfl, pure_bind_e, hv4, ok_bind]
  exact ⟨_, rfl, rfl⟩

theorem C2_witness :
    filterChangedRecords [⟨10, 500, 100, 0⟩, ⟨10, 500, 40, 0⟩] = [⟨10, 500, 100, 0⟩]
    ∧ ∃ out : DerivOut,
        computeDerivatives true 160 12 600 0 0
          (filterChangedRecords [⟨10, 500, 100, 0⟩, ⟨10, 500, 40, 0⟩]) = Except.ok out
        ∧ out.oi_velocity = max (-(oi_cap true)) (min (oi_cap true)
            (((600 : ℚ) - 500) / timeDivisor true ((160 : ℚ) - 100))) :=
  C2_velocity_last_distinct.2 true 160 12 600 0 0 ⟨10, 500, 100, 0⟩ [⟨10, 500, 40, 0⟩]
    (by decide) (by norm_num) (by norm_num)

/-- C10: the velocity, acceleration and gamma-concentration-trend divisions
share the unguarded divisor time_divisor, derived from the elapsed time since
the most recent distinct stored row (the previous-velocity division alone is
guarded by prev_time_divisor > 0): whenever that row strictly precedes the
current fetch time the whole block succeeds for every input, and when it does
not (equal timestamps) the ZeroDivisionError branch is reached, exhibited at
a concrete input whose OI changed. -/
theorem C10_unguarded_divisions :
    (∀ (is_index : Bool) (now atm_iv atm_oi gamma_concentration total_oi : ℚ)
        (p1 : GexHistRow) (rest : List GexHistRow), p1.ts < now →
        isOkE (computeDerivatives is_index now atm_iv atm_oi gamma_concentration total_oi
          (p1 :: rest)) = true)
    ∧ computeDerivatives true 100 0 20 0 0 [⟨5, 10, 100, 0⟩] = Except.error () := by
  refine ⟨fun i n a b c d p r h => computeDerivatives_ok i n a b c d p r h, ?_⟩
  simp only [computeDerivatives]
  dsimp only
  rw [if_pos (Or.inl (by norm_num))]
  rw [show timeDivisor true ((100 : ℚ) - 100) = 0 from by norm_num [timeDivisor]]
  have hiv : ivVelocityE true 0 0 5 = Except.error () := by
    unfold ivVelocityE
    rw [if_pos ⟨by norm_num, by norm_num⟩]
    rw [show qdiv ((0 : ℚ) - 5) 0 = Except.error () from if_pos rfl]
    rfl
  rw [hiv]
  rfl

theorem C10_witness :
    isOkE (computeDerivatives true 160 1 2 3 4 [⟨5, 10, 100, 0⟩, ⟨5, 10, 100, 0⟩]) = true :=
  C10_unguarded_divisions.1 true 160 1 2 3 4 ⟨5, 10, 100, 0⟩ [⟨5, 10, 100, 0⟩] (by norm_num)

theorem upsert_map_idem (l : List GammaRow) (r : GammaRow) :
    (l.map (fun x => if rowKey x = rowKey r then r else x)).map
        (fun x => if rowKey x = rowKey r then r else x)
      = l.map (fun x => if rowKey x = rowKey r then r else x) := by
  rw [List.map_map]
  apply List.map_congr_left
  intro x _
  by_cases h : rowKey x = rowKey r
  · simp [Function.comp, h]
  · simp [Function.comp, h]

theorem upsert_map_id (l : List GammaRow) (r : GammaRow)
    (h : ∀ x ∈ l, ¬ rowKey x = rowKey r) :
    l.map (fun x => if rowKey x = rowKey r then r else x) = l := by
  rw [List.map_congr_left (fun x hx => if_neg (h x hx))]
  exact List.map_id l

/-- C3 (amended): the write is an upsert keyed on the full-precision
(timestamp, symbol, expiry_date) primary key, so re-running the pipeline with
the identical stored timestamp (the same instant, to the microsecond) is
idempotent and leaves exactly one row for that key. -/
theorem C3_upsert_same_instant (table : List GammaRow) (r : GammaRow) :
    insert_gamma_exposure_history (insert_gamma_exposure_history table r) r
      = insert_gamma_exposure_history table r
    ∧ (countKey table (rowKey r) = 0 →
        countKey (insert_gamma_exposure_history (insert_gamma_exposure_history table r) r)
          (rowKey r) = 1) := by
  by_cases h : table.any (fun x => decide (rowKey x = rowKey r)) = true
  · have hmem : ∃ x ∈ table, rowKey x = rowKey r := by
      simpa using List.any_eq_true.mp h
    have h1 : insert_gamma_exposure_history table r
        = table.map (fun x => if rowKey x = rowKey r then r else x) := by
      unfold insert_gamma_exposure_history
      rw [if_pos h]
    have h2 : (table.map (fun x => if rowKey x = rowKey r then r else x)).any
        (fun x => decide (rowKey x = rowKey r)) = true := by
      obtain ⟨x, hx, hk⟩ := hmem
      refine List.any_eq_true.mpr ⟨r, ?_, by simp⟩
      refine List.mem_map.mpr ⟨x, hx, ?_⟩
      rw [if_pos hk]
    constructor
    · rw [h1]
      unfold insert_gamma_exposure_history
      rw [if_pos h2]
      exact upsert_map_idem table r
    · intro hc
      exfalso
      obtain ⟨x, hx, hk⟩ := hmem
      have : x ∈ table.filter (fun x => decide (rowKey x = rowKey r)) :=
        List.mem_filter.mpr ⟨hx, by simp [hk]⟩
      unfold countKey at hc
      rw [List.length_eq_zero] at hc
      simp [hc] at this
  · have hnone : ∀ x ∈ table, ¬ rowKey x = rowKey r := by
      intro x hx hk
      exact h (List.any_eq_true.mpr ⟨x, hx, by simp [hk]⟩)
    have h1 : insert_gamma_exposure_history table r = table ++ [r] := by
      unfold insert_gamma_exposure_history
      rw [if_neg (by simp [h])]
    have h2 : (table ++ [r]).any (fun x => decide (rowKey x = rowKey r)) = true :=
      List.any_eq_true.mpr ⟨r, by simp, by simp⟩
    have h3 : insert_gamma_exposure_history (table ++ [r]) r = table ++ [r] := by
      unfold insert_gamma_exposure_history
      rw [if_pos h2, List.map_append, upsert_map_id table r hnone]
      simp
    constructor
    · rw [h1, h3]
    · intro _
      rw [h1, h3]
      unfold countKey
      rw [List.filter_append]
      have : table.filter (fun x => decide (rowKey x = rowKey r)) = [] :=
        List.filter_eq_nil_iff.mpr (fun x hx => by simp [hnone x hx])
      rw [this]
      simp

theorem C3_witness :
    countKey
      (insert_gamma_exposure_history
        (insert_gamma_exposure_history [] (sampleRow 1000)) (sampleRow 1000))
      (rowKey (sampleRow 1000)) = 1 :=
  (C3_upsert_same_instant [] (sampleRow 1000)).2 rfl

/-- C3 counterexample: two pipeline runs within the same wall-clock second
whose datetime.now values differ by half a second (distinct microsecond
instants) store under distinct primary keys, leaving two rows for the
(symbol, expiry) pair, not one — the claim fails for runs at the same second
that are not at the same instant. -/
theorem C3_counterexample :
    countSymbolExpiry
      (insert_gamma_exposure_history
        (insert_gamma_exposure_history [] (sampleRow 1000)) (sampleRow (1000 + 1 / 2)))
      "NIFTY" "2025-10-16" = 2
    ∧ ⌊(1000 : ℚ)⌋ = ⌊(1000 + 1 / 2 : ℚ)⌋
    ∧ (1000 : ℚ) ≠ 1000 + 1 / 2 := by
  refine ⟨?_, ?_, by norm_num⟩
  · simp [countSymbolExpiry, insert_gamma_exposure_history, sampleRow, rowKey]
  · have hf1 : ⌊(1000 : ℚ)⌋ = 1000 := by
      rw [Int.floor_eq_iff]
      constructor <;> norm_num
    have hf2 : ⌊(1000 + 1 / 2 : ℚ)⌋ = 1000 := by
      rw [Int.floor_eq_iff]
      constructor <;> norm_num
    rw [hf1, hf2]

/-- C5 counterexample: with the configured retry count of 2 and every call
rate-limited, the expiry-resolution loop makes exactly two API calls (the
initial call and one retry) and sleeps exactly one rate-limit backoff of 5
seconds — no second retry exists and no wait of 10 seconds or more ever
precedes a reattempt. -/
theorem C5_counterexample :
    (get_latest_expiry none ⟨100, 600⟩ (fun _ => ContractsResp.rateLimited)).backoffWaits = [5]
    ∧ (get_latest_expiry none ⟨100, 600⟩ (fun _ => ContractsResp.rateLimited)).apiCalls = 2 := by
  constructor <;>
    norm_num [get_latest_expiry, get_latest_expiry_go, expiryRespCase, rateLimitBackoff,
      List.range, List.range.loop]

/-- C5 (amended): the rate-limit backoff before the retry that follows
attempt a is 5 * 2^a seconds (doubling per attempt), for those retries that
occur; under the configured retry count of 2 the only backoff is the 5 second
one before the single permitted retry, while the 10 second doubled wait would
occur only from a retry budget of at least 3 (exhibited with budget 3, whose
backoff schedule is [5, 10]). -/
theorem C5_backoff_schedule :
    (∀ (api : ℕ → ContractsResp) (today : ℤ) (cachedVal : Option ℤ)
        (attempt : ℕ) (rest : List ℕ),
        api attempt = ContractsResp.rateLimited → rest ≠ [] →
        (get_latest_expiry_go api today cachedVal (attempt :: rest)).backoffWaits.head?
          = some (5 * 2 ^ attempt))
    ∧ ∀ (today : ℤ) (cachedVal : Option ℤ),
        (get_latest_expiry_go (fun _ => ContractsResp.rateLimited) today cachedVal
          (List.range 2)).backoffWaits = [5]
        ∧ (get_latest_expiry_go (fun _ => ContractsResp.rateLimited) today cachedVal
            (List.range 3)).backoffWaits = [5, 10]
        ∧ (get_latest_expiry_go (fun _ => ContractsResp.rateLimited) today cachedVal
            (List.range 2)).apiCalls = 2 := by
  constructor
  · intro api today cachedVal attempt rest hapi hrest
    unfold get_latest_expiry_go
    rw [hapi]
    simp only [expiryRespCase]
    rw [if_pos hrest]
    simp [rateLimitBackoff]
  · intro today cachedVal
    rcases cachedVal with _ | e <;>
      refine ⟨?_, ?_, ?_⟩ <;>
        norm_num [get_latest_expiry_go, expiryRespCase, List.range, List.range.loop,
          rateLimitBackoff, List.cons_ne_nil]

theorem C5_witness :
    (get_latest_expiry_go (fun _ => ContractsResp.rateLimited) 0 none
      [1, 2]).backoffWaits.head? = some 10 := by
  have h := C5_backoff_schedule.1 (fun _ => ContractsResp.rateLimited) 0 none 1 [2] rfl
    (by simp)
  norm_num at h
  exact h

theorem get_latest_expiry_go_api (api : ℕ → ContractsResp) (today : ℤ)
    (cachedVal : Option ℤ) :
    ∀ (l : List ℕ), l ≠ [] →
      (get_latest_expiry_go api today cachedVal l).usedDailyCache = false
      ∧ 1 ≤ (get_latest_expiry_go api today cachedVal l).apiCalls := by
  intro l
  induction l with
  | nil => exact fun h => absurd rfl h
  | cons a rest ih =>
    intro _
    unfold get_latest_expiry_go
    rcases h : api a with _ | ds | _
    · simp only [expiryRespCase]
      by_cases hr : rest ≠ []
      · rw [if_pos hr]
        exact ⟨(ih hr).1, by simp⟩
      · rw [if_neg hr]
        rcases cachedVal with _ | e <;> simp
    · simp only [expiryRespCase]
      rcases hh : (sortedFutureExpiries today ds).head? with _ | e <;> simp [hh]
    · simp only [expiryRespCase]
      by_cases hr : rest ≠ []
      · rw [if_pos hr]
        exact ⟨(ih hr).1, by simp⟩
      · rw [if_neg hr]
        simp

/-- C6 counterexample: an entry cached on day 100 is returned on day 101 when
the upstream stays rate-limited through both attempts — the cached value is
reused across a local-day boundary via the stale-cache fallback
(src/background_service.py lines 803-810). -/
theorem C6_counterexample :
    (get_latest_expiry (some (500, 100)) ⟨101, 600⟩
        (fun _ => ContractsResp.rateLimited)).expiry = some 500
    ∧ (get_latest_expiry (some (500, 100)) ⟨101, 600⟩
        (fun _ => ContractsResp.rateLimited)).usedStaleFallback = true
    ∧ (100 : ℤ) ≠ 101 :=
  ⟨rfl, rfl, by decide⟩

/-- C6 (amended): for any cache entry whose day differs from today, or after
local market close (15:30) of the same day, the daily-cache fast path is
never taken and re-resolution from the upstream API is always attempted (at
least one API call); a successful first call returns the freshly resolved
expiry, and the stale cached value is returned only when every attempt is
rate-limited (the last-resort fallback). -/
theorem C6_day_boundary :
    ∀ (cachedExpiry cacheDay : ℤ) (now : LocalDateTime) (api : ℕ → ContractsResp),
      (cacheDay ≠ now.day ∨ marketCloseMinutes ≤ now.minutes) →
      (get_latest_expiry (some (cachedExpiry, cacheDay)) now api).usedDailyCache = false
      ∧ 1 ≤ (get_latest_expiry (some (cachedExpiry, cacheDay)) now api).apiCalls
      ∧ ((∀ a, api a = ContractsResp.rateLimited) →
          (get_latest_expiry (some (cachedExpiry, cacheDay)) now api).expiry
            = some cachedExpiry
          ∧ (get_latest_expiry (some (cachedExpiry, cacheDay)) now api).usedStaleFallback
            = true)
      ∧ (∀ (ds : List ℤ) (x : ℤ), api 0 = ContractsResp.contracts ds →
          (sortedFutureExpiries now.day ds).head? = some x →
          (get_latest_expiry (some (cachedExpiry, cacheDay)) now api).expiry = some x
          ∧ (get_latest_expiry (some (cachedExpiry, cacheDay)) now api).usedStaleFallback
            = false) := by
  intro cachedExpiry cacheDay now api h
  have hcond : ¬ (cacheDay = now.day ∧ now.minutes < marketCloseMinutes) := by
    rcases h with h | h
    · exact fun hc => h hc.1
    · exact fun hc => absurd hc.2 (not_lt.mpr h)
  have hgo : get_latest_expiry (some (cachedExpiry, cacheDay)) now api
      = get_latest_expiry_go api now.day (some cachedExpiry) [0, 1] := by
    unfold get_latest_expiry
    dsimp only
    rw [if_neg hcond]
    rfl
  rw [hgo]
  refine ⟨(get_latest_expiry_go_api api now.day (some cachedExpiry) [0, 1] (by simp)).1,
    (get_latest_expiry_go_api api now.day (some cachedExpiry) [0, 1] (by simp)).2, ?_, ?_⟩
  · intro hall
    have h0 := hall 0
    have h1 := hall 1
    constructor <;> simp [get_latest_expiry_go, expiryRespCase, h0, h1]
  · intro ds x h0 hh
    constructor <;> simp [get_latest_expiry_go, expiryRespCase, h0, hh]

theorem C6_witness :
    (get_latest_expiry (some (500, 100)) ⟨101, 0⟩
        (fun _ => ContractsResp.rateLimited)).usedDailyCache = false
    ∧ (get_latest_expiry (some (500, 100)) ⟨101, 0⟩
        (fun _ => ContractsResp.rateLimited)).expiry = some 500 := by
  have h := C6_day_boundary 500 100 ⟨101, 0⟩ (fun _ => ContractsResp.rateLimited)
    (Or.inl (by decide))
  exact ⟨h.1, (h.2.2.1 (fun a => rfl)).1⟩

end OptionChain
